import Mathlib

/-!
Verification of the multi-window note lifecycle and synchronization layer of the
sticky-notes application, shallowly embedded from `src/src/App.vue`.

The embedding models:
* window identity resolution from the window label (App.vue lines 21 and 66);
* the per-editor-window debounced persistence controller (`debounceSave`, its
  `setTimeout` callback, and `closeWindow`, App.vue lines 28-41 and 108-127),
  driven by an explicit single-threaded event loop over timed stimuli;
* the dashboard aggregator (`fetchNotes`, `createNewNote`, `deleteNote`,
  App.vue lines 43-49, 129-142, 144-152).

Asynchronous collaborator calls (`invoke('save_note')`, `invoke('get_all_notes')`,
`invoke('create_new_note_cmd')`, `invoke('delete_note')`) can succeed or fail;
their outcomes are supplied by an explicit oracle (a list of Booleans consumed
one per call, or an `Option` result for list requests).  A save RPC is modelled
as completing atomically at the point of invocation: the suspension inside the
`await` is not interleaved with other events of the same session.  Observable
collaborator calls are recorded in a trace.
-/

/-! ## Window identity resolution (App.vue lines 21 and 66) -/

/-- The reserved dashboard window label, from `appWindow.label === 'main'`. -/
def dashLabel : String := "main"

/-- The reserved note-window label marker, from `label.startsWith('note-')`. -/
def noteMarker : String := "note-"

/-- JavaScript `String.prototype.replace` with a string pattern replaces only the
first occurrence of the pattern (an empty pattern matches at position 0). -/
def replaceFirst (pat repl : List Char) : List Char → List Char
  | [] => if pat.isEmpty then repl else []
  | c :: cs =>
      if pat.isPrefixOf (c :: cs) then repl ++ List.drop pat.length (c :: cs)
      else c :: replaceFirst pat repl cs

/-- JavaScript `s.replace(pat, repl)` (first occurrence only). -/
def jsReplace (s pat repl : String) : String :=
  ⟨replaceFirst pat.data repl.data s.data⟩

/-- JavaScript `s.startsWith(pat)`. -/
def jsStartsWith (s pat : String) : Bool :=
  pat.data.isPrefixOf s.data

/-- The role a window derives from its label: the dashboard, or the editor of
one note. -/
inductive WindowRole
  | Dashboard
  | NoteEditor (id : String)
deriving DecidableEq

/-- Window identity resolution, from App.vue:
`isDashboard = (appWindow.label === 'main')` (line 21) and
`noteId.value = label.startsWith('note-') ? label.replace('note-', '') : label`
(line 66, reached only when the window is not the dashboard). -/
def resolve (label : String) : WindowRole :=
  if label = dashLabel then WindowRole.Dashboard
  else WindowRole.NoteEditor
    (if jsStartsWith label noteMarker then jsReplace label noteMarker "" else label)

/-- Modelled from the spec's words (for comparison with `resolve`): the note id
is "the label with that prefix stripped", i.e. the label minus its first
`noteMarker.length` characters. -/
def specStripMarker (label : String) : String :=
  ⟨label.data.drop noteMarker.data.length⟩

/-! ## Editor session state (App.vue lines 23-41) -/

/-- A `setTimeout` registration held in the `saveTimeout` variable: the time at
which it is due, the `content` argument captured by the callback closure, and
whether the callback has already run.  `clearTimeout` on an already-fired id is
a no-op, and a fired id never fires again, but the variable holding it is still
truthy; `fired` records exactly that distinction. -/
structure TimerRec where
  deadline : Nat
  content : String
  fired : Bool
deriving DecidableEq

/-- The per-editor-window mutable state: the `noteId` and `currentContent` refs
and the `saveTimeout` variable (`none` models JavaScript `null`). -/
structure SessionState where
  noteId : String
  currentContent : String
  saveTimeout : Option TimerRec
deriving DecidableEq

/-- Observable collaborator calls issued by the component, in program order.
`save id content ok` is an `invoke('save_note')` together with the outcome its
promise settled with; `refresh` is `invoke('trigger_refresh_notes')` (the
fire-and-forget bus publication); `destroy` is `appWindow.close()`; `hide` is
`appWindow.hide()`; `deleteNote` is `invoke('delete_note')`; `list` is
`invoke('get_all_notes')`. -/
inductive Call
  | save (id content : String) (ok : Bool)
  | refresh
  | destroy
  | hide
  | deleteNote (id : String) (ok : Bool)
  | list
deriving DecidableEq

/-- App.vue lines 29-41 up to the `setTimeout` call:
`if (saveTimeout) clearTimeout(saveTimeout); saveTimeout = setTimeout(cb, 1000)`.
Any previously registered timer is cancelled and the slot is overwritten with a
fresh registration due 1000 ms from now, capturing `content`. -/
def debounceSave (now : Nat) (content : String) (s : SessionState) : SessionState :=
  { s with saveTimeout := some ⟨now + 1000, content, false⟩ }

/-- App.vue lines 89-92, the editor's `markdownUpdated` listener:
`currentContent.value = markdown; debounceSave(markdown)`. -/
def markdownUpdated (now : Nat) (markdown : String) (s : SessionState) : SessionState :=
  debounceSave now markdown { s with currentContent := markdown }

/-- A whole editor-window world: its session state, the oracle of pending save
outcomes (consumed one entry per `save_note` call; an exhausted oracle defaults
to success), and whether `appWindow.close()` has destroyed the window. -/
structure World where
  sess : SessionState
  oracle : List Bool
  closed : Bool
deriving DecidableEq

/-- Consume the next save outcome from the oracle (defaults to success). -/
def takeOutcome : List Bool → Bool × List Bool
  | [] => (true, [])
  | b :: bs => (b, bs)

/-- The `setTimeout` callback body from `debounceSave` (App.vue lines 31-40),
run when the timer registered as `tm` fires:
`try { await invoke('save_note', {id, content}); saveTimeout = null;`
`await invoke('trigger_refresh_notes') } catch (e) { console.error(...) }`.
On success the slot is nulled and a refresh is published; on failure the error
is only logged, so the slot still holds the (now fired) timer id. -/
def fireTimerCallback (tm : TimerRec) (w : World) : World × List Call :=
  if (takeOutcome w.oracle).1 then
    ({ w with sess := { w.sess with saveTimeout := none },
              oracle := (takeOutcome w.oracle).2 },
      [Call.save w.sess.noteId tm.content true, Call.refresh])
  else
    ({ w with sess := { w.sess with saveTimeout := some { tm with fired := true } },
              oracle := (takeOutcome w.oracle).2 },
      [Call.save w.sess.noteId tm.content false])

/-- Event-loop dispatch of the debounce timer at time `t`: a registration that
has not yet fired and whose deadline has passed runs its callback; a fired or
not-yet-due registration does nothing. -/
def fireDue (t : Nat) (w : World) : World × List Call :=
  match w.sess.saveTimeout with
  | none => (w, [])
  | some tm =>
      if tm.fired = false ∧ tm.deadline ≤ t then fireTimerCallback tm w
      else (w, [])

/-- `closeWindow` from App.vue lines 108-127.  The dashboard hides instead of
closing.  A note editor with a truthy `saveTimeout` cancels it, nulls the slot,
and awaits `save_note` with `currentContent` (publishing a refresh on success,
only logging on failure); in every case `appWindow.close()` is awaited last. -/
def closeWindow (isDashboard : Bool) (s : SessionState) (orc : List Bool) :
    SessionState × List Bool × List Call :=
  if isDashboard then (s, orc, [Call.hide])
  else
    match s.saveTimeout with
    | none => (s, orc, [Call.destroy])
    | some _ =>
        if (takeOutcome orc).1 then
          ({ s with saveTimeout := none }, (takeOutcome orc).2,
            [Call.save s.noteId s.currentContent true, Call.refresh, Call.destroy])
        else
          ({ s with saveTimeout := none }, (takeOutcome orc).2,
            [Call.save s.noteId s.currentContent false, Call.destroy])

/-- External stimuli arriving at an editor window: a user edit (the editor
widget emitting `markdownUpdated` at time `t` with the new markdown) or a close
request at time `t`. -/
inductive Stimulus
  | edit (t : Nat) (content : String)
  | close (t : Nat)
deriving DecidableEq

/-- Apply the `markdownUpdated` handler to the session of a world. -/
def editStep (t : Nat) (content : String) (w : World) : World :=
  { w with sess := markdownUpdated t content w.sess }

/-- Apply the note-editor branch of `closeWindow` to a world; the final
`appWindow.close()` marks the window destroyed. -/
def closeStep (w : World) : World × List Call :=
  (⟨(closeWindow false w.sess w.oracle).1,
    (closeWindow false w.sess w.oracle).2.1, true⟩,
    (closeWindow false w.sess w.oracle).2.2)

/-- One event-loop step of a note-editor window: a destroyed window receives
nothing; otherwise a due debounce timer fires before the stimulus at time `t`
is handled. -/
def applyStim (w : World) (st : Stimulus) : World × List Call :=
  if w.closed then (w, [])
  else
    match st with
    | Stimulus.edit t content =>
        (editStep t content (fireDue t w).1, (fireDue t w).2)
    | Stimulus.close t =>
        ((closeStep (fireDue t w).1).1,
          (fireDue t w).2 ++ (closeStep (fireDue t w).1).2)

/-- Run a timed stimulus list through the event loop, collecting the trace. -/
def runStims (w : World) : List Stimulus → World × List Call
  | [] => (w, [])
  | st :: rest =>
      ((runStims (applyStim w st).1 rest).1,
        (applyStim w st).2 ++ (runStims (applyStim w st).1 rest).2)

/-- A freshly mounted editor window for note `id`: empty content, no timer. -/
def initWorld (id : String) (orc : List Bool) : World :=
  ⟨⟨id, "", none⟩, orc, false⟩

/-- End-of-run quiescence: an armed debounce timer is eventually fired by the
event loop once its deadline is reached. -/
def flushPendingTimer (w : World) : World × List Call :=
  match w.sess.saveTimeout with
  | some tm => fireDue tm.deadline w
  | none => (w, [])

/-- A complete run of one editor session: mount, process the stimuli, then let
any remaining armed timer expire. -/
def runSession (id : String) (orc : List Bool) (stims : List Stimulus) :
    World × List Call :=
  ((flushPendingTimer (runStims (initWorld id orc) stims).1).1,
    (runStims (initWorld id orc) stims).2 ++
      (flushPendingTimer (runStims (initWorld id orc) stims).1).2)

/-- Turn timed edits into stimuli. -/
def editStims (es : List (Nat × String)) : List Stimulus :=
  es.map fun p => Stimulus.edit p.1 p.2

/-- The time and content of the last edit of `(t0, c0) :: es`. -/
def lastTC (t0 : Nat) (c0 : String) : List (Nat × String) → Nat × String
  | [] => (t0, c0)
  | (t, c) :: rest => lastTC t c rest

/-- The edits in `es` each arrive strictly later than the previous one and
strictly within the 1000 ms debounce delay of it, starting from an edit at
`prev`. -/
def closeArrivals : Nat → List (Nat × String) → Bool
  | _, [] => true
  | prev, (t, _) :: rest =>
      decide (prev < t) && decide (t < prev + 1000) && closeArrivals t rest

/-- One step of the refresh-publication automaton: state `true` means the
previous call was a successful save, which must be followed immediately by
exactly one refresh publication; in state `false` a refresh is illegal and a
successful save moves to state `true`; every other call leaves state `false`. -/
def refreshStep : Bool → Call → Option Bool
  | true, Call.refresh => some false
  | true, _ => none
  | false, Call.save _ _ true => some true
  | false, Call.refresh => none
  | false, _ => some false

/-- Run the refresh-publication automaton over a trace; `none` means the trace
violates "a refresh is published exactly once, immediately after each
successful save, and never otherwise". -/
def refreshState (e : Bool) : List Call → Option Bool
  | [] => some e
  | c :: rest =>
      match refreshStep e c with
      | none => none
      | some e2 => refreshState e2 rest

/-- Whether a call is a `save_note` invocation. -/
def isSaveCall : Call → Bool
  | Call.save _ _ _ => true
  | _ => false

/-- Number of `save_note` invocations in a trace. -/
def numSaves (tr : List Call) : Nat :=
  (tr.filter isSaveCall).length

/-- Invariant of reachable editor worlds: an armed (not yet fired) timer always
captured exactly the current `currentContent` — so the content the callback
will save equals `lastKnownContent` at expiry time. -/
def armedContentInv (w : World) : Prop :=
  ∀ tm : TimerRec, w.sess.saveTimeout = some tm → tm.fired = false →
    tm.content = w.sess.currentContent

/-! ## Dashboard aggregator (App.vue lines 43-49, 129-152) -/

/-- The note summary record fetched from `get_all_notes` (App.vue lines 13-16). -/
structure NoteInfo where
  id : String
  preview : String
deriving DecidableEq

/-- The dashboard's in-memory state: the `allNotes` ref. -/
structure DashState where
  allNotes : List NoteInfo
deriving DecidableEq

/-- `fetchNotes` (App.vue lines 43-49): when the `get_all_notes` response
arrives, a fulfilled promise performs `allNotes.value = result`; a rejection
only logs, leaving `allNotes` untouched. -/
def applyFetchResponse (resp : Option (List NoteInfo)) (d : DashState) : DashState :=
  match resp with
  | some notes => { d with allNotes := notes }
  | none => d

/-- A completed `get_all_notes` response.  `issueIdx` is ghost bookkeeping
recording the order in which the request was issued; the code never inspects
it. -/
structure FetchResp where
  issueIdx : Nat
  result : Option (List NoteInfo)
deriving DecidableEq

/-- Overlapping `fetchNotes` invocations: each response is applied by the
single-threaded continuation of its own call, in arrival order. -/
def runFetches (d : DashState) (arrivals : List FetchResp) : DashState :=
  List.foldl (fun st r => applyFetchResponse r.result st) d arrivals

/-- The result of the last successful response in arrival order, with a
fallback when no response succeeded. -/
def lastSuccess (fallback : List NoteInfo) : List FetchResp → List NoteInfo
  | [] => fallback
  | r :: rest =>
      match r.result with
      | some notes => lastSuccess notes rest
      | none => lastSuccess fallback rest

/-- `deleteNote` from App.vue lines 144-152:
`if (confirm(...)) { try { await invoke('delete_note', { id }) } catch (e) {`
`console.error(...) } }` — `confirmed` is the user's answer to the dialog and
`ok` the outcome of the delete RPC.  The returned trace is every collaborator
call the handler issues. -/
def deleteNote (confirmed : Bool) (id : String) (ok : Bool) : List Call :=
  if confirmed then [Call.deleteNote id ok] else []

/-- State of the dashboard's create-note control: the `isCreatingNote` ref,
whether a `create_new_note_cmd` RPC is outstanding (the promise awaited inside
`createNewNote`), and how many `create_new_note_cmd` invocations have been
issued. -/
structure CreateState where
  isCreatingNote : Bool
  inFlight : Bool
  createCalls : Nat
deriving DecidableEq

/-- Events of the create-note control: a click on the "new note" button, or the
outstanding RPC promise settling (fulfilled or rejected). -/
inductive CreateEv
  | click
  | rpcResolve (ok : Bool)
deriving DecidableEq

/-- `createNewNote` (App.vue lines 129-142) as a step machine.  A click runs
the body up to the `await`: `if (isCreatingNote.value) return;` then
`isCreatingNote.value = true` and `invoke('create_new_note_cmd')` is issued.
`rpcResolve` models the awaited promise settling, after which the `finally`
block runs `isCreatingNote.value = false` whether it fulfilled or rejected. -/
def createStep (s : CreateState) : CreateEv → CreateState
  | CreateEv.click =>
      if s.isCreatingNote then s
      else { isCreatingNote := true, inFlight := true, createCalls := s.createCalls + 1 }
  | CreateEv.rpcResolve _ =>
      if s.inFlight then { s with isCreatingNote := false, inFlight := false }
      else s

/-! ## Helper lemmas -/

theorem replaceFirst_of_isPrefixOf (pat l : List Char) (h : pat.isPrefixOf l = true) :
    replaceFirst pat [] l = List.drop pat.length l := by
  cases l with
  | nil =>
      cases pat with
      | nil => simp [replaceFirst]
      | cons a as => simp [List.isPrefixOf] at h
  | cons c cs => simp [replaceFirst, h]

theorem jsReplace_eq_strip (label : String) (h : jsStartsWith label noteMarker = true) :
    jsReplace label noteMarker "" = specStripMarker label := by
  unfold jsStartsWith at h
  unfold jsReplace specStripMarker
  exact congrArg String.mk (replaceFirst_of_isPrefixOf _ _ h)

/-- C4: window identity resolution is a pure function of the label: the
reserved label "main" resolves to the dashboard; a label starting with "note-"
resolves to a note editor whose id is the label with that prefix stripped
(`resolve "note-42" = NoteEditor "42"`); any other label resolves to a note
editor whose id is the entire label. -/
theorem c4_resolve_role (label : String) (hne : label ≠ "") :
    (label = dashLabel → resolve label = WindowRole.Dashboard)
    ∧ (jsStartsWith label noteMarker = true →
        resolve label = WindowRole.NoteEditor (specStripMarker label))
    ∧ (label ≠ dashLabel → jsStartsWith label noteMarker = false →
        resolve label = WindowRole.NoteEditor label)
    ∧ resolve "note-42" = WindowRole.NoteEditor "42"
    ∧ resolve "main" = WindowRole.Dashboard := by
  refine ⟨?_, ?_, ?_, by decide, by decide⟩
  · intro h
    simp [resolve, h]
  · intro h
    have hmain : ¬(label = dashLabel) := by
      intro e
      rw [e] at h
      exact absurd h (by decide)
    simp [resolve, hmain, h, jsReplace_eq_strip label h]
  · intro h1 h2
    simp [resolve, h1, h2]

/-- C4 witness: the resolution of the concrete label "note-42". -/
theorem c4_resolve_role_witness :
    resolve "note-42" = WindowRole.NoteEditor (specStripMarker "note-42")
    ∧ specStripMarker "note-42" = "42" :=
  ⟨(c4_resolve_role "note-42" (by decide)).2.1 (by decide), by decide⟩

/-- C9: if the `get_all_notes` call fails during a refresh, the previously held
summary list is retained unchanged (the failure is only logged); the in-memory
sequence is replaced only when the call succeeds. -/
theorem c9_list_failure_retains (d : DashState) (notes : List NoteInfo) :
    applyFetchResponse none d = d
    ∧ (applyFetchResponse (some notes) d).allNotes = notes :=
  ⟨rfl, rfl⟩

/-- C6 counterexample: two overlapping `fetchNotes` requests; request 0 (issued
first, result "old") and request 1 (issued later, result "new").  The response
of the newer request arrives first and the older response arrives second; the
retained list is the OLDER request's result, so the claim that the summary list
never shows a result older than the most recently issued request is false of
the code. -/
theorem c6_counterexample :
    (runFetches ⟨[]⟩ [⟨1, some [⟨"n", "new"⟩]⟩, ⟨0, some [⟨"n", "old"⟩]⟩]).allNotes
        = [⟨"n", "old"⟩]
    ∧ ([(⟨"n", "old"⟩ : NoteInfo)] ≠ [(⟨"n", "new"⟩ : NoteInfo)]) :=
  ⟨rfl, by decide⟩

/-- C6 amended: `fetchNotes` applies each response by unconditional assignment,
so after overlapping `refresh()` invocations the retained summary list is the
result of whichever successful response arrived last, regardless of the order
in which the requests were issued (last response wins, not newest request). -/
theorem c6_amended_last_response_wins (d : DashState) (arrivals : List FetchResp) :
    (runFetches d arrivals).allNotes = lastSuccess d.allNotes arrivals := by
  induction arrivals generalizing d with
  | nil => rfl
  | cons r rest ih =>
      have hstep : runFetches d (r :: rest) = runFetches (applyFetchResponse r.result d) rest :=
        rfl
      cases hr : r.result with
      | none =>
          rw [hstep, hr]
          simpa [lastSuccess, hr] using ih d
      | some notes =>
          rw [hstep, hr]
          simpa [lastSuccess, hr, applyFetchResponse] using ih ⟨notes⟩

/-- C8 counterexample: a confirmed `deleteNote("n1")` whose delete RPC
succeeds issues exactly the delete call and nothing else — in particular no
`get_all_notes` request follows, so the handler does not refresh the
dashboard's summary list as the claim states. -/
theorem c8_counterexample :
    deleteNote true "n1" true = [Call.deleteNote "n1" true]
    ∧ Call.list ∉ deleteNote true "n1" true :=
  ⟨rfl, by decide⟩

/-- C8 amended: after the user confirms, `deleteNote(id)` calls the persistence
delete operation (a failure being only logged) and does not itself refresh the
summary list: it never issues a `get_all_notes` request; any refresh of the
dashboard can only arrive via a separate refresh-notes bus event published
outside this handler. -/
theorem c8_amended_delete_no_refresh (confirmed : Bool) (id : String) (ok : Bool) :
    deleteNote confirmed id ok = (if confirmed then [Call.deleteNote id ok] else [])
    ∧ Call.list ∉ deleteNote confirmed id ok := by
  refine ⟨rfl, ?_⟩
  cases confirmed <;> simp [deleteNote]

/-- C7: `createNewNote` is guarded by the single `isCreatingNote` flag: a click
while the flag is set performs no create operation, so two clicks before the
first RPC resolves issue exactly one `create_new_note_cmd`; and the flag is
cleared when the RPC settles, whether it fulfilled or rejected, re-enabling the
control. -/
theorem c7_create_in_flight_guard :
    (∀ ok : Bool,
      (List.foldl createStep ⟨false, false, 0⟩
          [CreateEv.click, CreateEv.click, CreateEv.rpcResolve ok]).createCalls = 1
      ∧ (List.foldl createStep ⟨false, false, 0⟩
          [CreateEv.click, CreateEv.click, CreateEv.rpcResolve ok]).isCreatingNote = false)
    ∧ (∀ s : CreateState, s.isCreatingNote = true → createStep s CreateEv.click = s)
    ∧ (∀ (s : CreateState) (ok : Bool), s.inFlight = true →
        (createStep s (CreateEv.rpcResolve ok)).isCreatingNote = false
        ∧ (createStep s (CreateEv.rpcResolve ok)).inFlight = false) := by
  refine ⟨?_, ?_, ?_⟩
  · intro ok
    cases ok <;> exact ⟨rfl, rfl⟩
  · intro s h
    simp [createStep, h]
  · intro s ok h
    simp [createStep, h]

/-- C7 witness: two clicks then a rejected RPC create exactly one note; a click
with the flag set is a no-op; a rejected RPC still clears the flag. -/
theorem c7_create_in_flight_guard_witness :
    (List.foldl createStep ⟨false, false, 0⟩
        [CreateEv.click, CreateEv.click, CreateEv.rpcResolve false]).createCalls = 1
    ∧ createStep ⟨true, true, 1⟩ CreateEv.click = ⟨true, true, 1⟩
    ∧ (createStep ⟨true, true, 1⟩ (CreateEv.rpcResolve false)).isCreatingNote = false :=
  ⟨(c7_create_in_flight_guard.1 false).1,
   c7_create_in_flight_guard.2.1 ⟨true, true, 1⟩ rfl,
   (c7_create_in_flight_guard.2.2 ⟨true, true, 1⟩ false rfl).1⟩

/-- C1: on a note-editor window, if a scheduled save is pending when
`closeWindow` runs, the `save_note` call completes (with success or failure)
before `appWindow.close()` is issued — in the trace the save, with its settled
outcome, precedes `destroy`; with no pending save, no save call is issued and
the trace is exactly the destroy. -/
theorem c1_close_flush_order (s : SessionState) (orc : List Bool) :
    (∀ tm : TimerRec, s.saveTimeout = some tm →
        (closeWindow false s orc).2.2 =
          Call.save s.noteId s.currentContent (takeOutcome orc).1 ::
            (if (takeOutcome orc).1 then [Call.refresh, Call.destroy]
             else [Call.destroy]))
    ∧ (s.saveTimeout = none → (closeWindow false s orc).2.2 = [Call.destroy]) := by
  constructor
  · intro tm h
    by_cases hok : (takeOutcome orc).1 = true <;> simp [closeWindow, h, hok]
  · intro h
    simp [closeWindow, h]

/-- C1 witness: a close with a pending save and a successful flush saves the
current content, publishes a refresh, and only then destroys; a close with no
pending save only destroys. -/
theorem c1_close_flush_order_witness :
    (closeWindow false ⟨"abc", "Hello world", some ⟨1000, "Hello", false⟩⟩ [true]).2.2 =
      [Call.save "abc" "Hello world" true, Call.refresh, Call.destroy]
    ∧ (closeWindow false ⟨"abc", "done", none⟩ []).2.2 = [Call.destroy] := by
  constructor
  · have h := (c1_close_flush_order ⟨"abc", "Hello world", some ⟨1000, "Hello", false⟩⟩
        [true]).1 ⟨1000, "Hello", false⟩ rfl
    simpa using h
  · exact (c1_close_flush_order ⟨"abc", "done", none⟩ []).2 rfl

/-- C10: when the debounce timer fires and the `save_note` call fails, the
`saveTimeout` slot is not cleared (it keeps the already-fired timer id), so a
later `closeWindow` still treats a save as pending and re-attempts the save
with the current `currentContent` before destroying the window; whereas after a
successful debounced save, the slot is nulled and `closeWindow` issues no save
call. -/
theorem c10_failed_save_close_reattempts (w : World) (t : Nat) (tm : TimerRec)
    (hs : w.sess.saveTimeout = some tm) (hf : tm.fired = false) (hd : tm.deadline ≤ t) :
    ((takeOutcome w.oracle).1 = false →
        (fireDue t w).1.sess.saveTimeout = some { tm with fired := true }
        ∧ ∀ orc : List Bool,
            (closeWindow false (fireDue t w).1.sess orc).2.2 =
              Call.save w.sess.noteId w.sess.currentContent (takeOutcome orc).1 ::
                (if (takeOutcome orc).1 then [Call.refresh, Call.destroy]
                 else [Call.destroy]))
    ∧ ((takeOutcome w.oracle).1 = true →
        (fireDue t w).1.sess.saveTimeout = none
        ∧ ∀ orc : List Bool,
            (closeWindow false (fireDue t w).1.sess orc).2.2 = [Call.destroy]) := by
  constructor
  · intro hok
    have h1 : (fireDue t w).1.sess.saveTimeout = some { tm with fired := true } := by
      simp [fireDue, hs, hf, hd, fireTimerCallback, hok]
    have h2 : (fireDue t w).1.sess.currentContent = w.sess.currentContent := by
      simp [fireDue, hs, hf, hd, fireTimerCallback, hok]
    have h3 : (fireDue t w).1.sess.noteId = w.sess.noteId := by
      simp [fireDue, hs, hf, hd, fireTimerCallback, hok]
    refine ⟨h1, ?_⟩
    intro orc
    by_cases hok2 : (takeOutcome orc).1 = true <;>
      simp [closeWindow, h1, h2, h3, hok2]
  · intro hok
    have h1 : (fireDue t w).1.sess.saveTimeout = none := by
      simp [fireDue, hs, hf, hd, fireTimerCallback, hok]
    refine ⟨h1, ?_⟩
    intro orc
    simp [closeWindow, h1]

/-- C10 witness: an edit of "Hello" whose debounced save fails leaves the slot
holding the fired timer; a close with a now-successful save re-saves "Hello"
and destroys; had the debounced save succeeded, the close would only destroy. -/
theorem c10_failed_save_close_reattempts_witness :
    (fireDue 1000 ⟨⟨"abc", "Hello", some ⟨1000, "Hello", false⟩⟩, [false], false⟩).1.sess.saveTimeout
        = some ⟨1000, "Hello", true⟩
    ∧ (closeWindow false
        (fireDue 1000 ⟨⟨"abc", "Hello", some ⟨1000, "Hello", false⟩⟩, [false], false⟩).1.sess
        [true]).2.2 =
      [Call.save "abc" "Hello" true, Call.refresh, Call.destroy] := by
  have h := (c10_failed_save_close_reattempts
      ⟨⟨"abc", "Hello", some ⟨1000, "Hello", false⟩⟩, [false], false⟩ 1000
      ⟨1000, "Hello", false⟩ rfl rfl (by decide)).1 (by decide)
  exact ⟨h.1, by simpa using h.2 [true]⟩

/-- C5 counterexample: an edit at t=0 arms the timer; it fires at t=1000 and
the save fails; contrary to the claim that the `ScheduledSave` slot is then
cleared regardless of the save outcome, the slot is not cleared. -/
theorem c5_counterexample :
    (fireDue 1000 ((applyStim (initWorld "abc" [false]) (Stimulus.edit 0 "Hello")).1)).1.sess.saveTimeout
      ≠ none := by
  have h : (fireDue 1000 ((applyStim (initWorld "abc" [false])
      (Stimulus.edit 0 "Hello")).1)).1.sess.saveTimeout = some ⟨1000, "Hello", true⟩ := rfl
  rw [h]
  simp

theorem closeWindow_slot_none (s : SessionState) (orc : List Bool) :
    (closeWindow false s orc).1.saveTimeout = none := by
  cases hs : s.saveTimeout with
  | none => simp [closeWindow, hs]
  | some tm => by_cases hok : (takeOutcome orc).1 = true <;> simp [closeWindow, hs, hok]

theorem armedInv_applyStim (w : World) (st : Stimulus) (h : armedContentInv w) :
    armedContentInv (applyStim w st).1 := by
  by_cases hc : w.closed = true
  · simpa [applyStim, hc] using h
  · cases st with
    | edit t c =>
        intro tm htm hf
        have hslot : (applyStim w (Stimulus.edit t c)).1.sess.saveTimeout
            = some ⟨t + 1000, c, false⟩ := by
          simp [applyStim, hc, editStep, markdownUpdated, debounceSave]
        have hcc : (applyStim w (Stimulus.edit t c)).1.sess.currentContent = c := by
          simp [applyStim, hc, editStep, markdownUpdated, debounceSave]
        rw [hslot] at htm
        injection htm with htm2
        rw [← htm2, hcc]
    | close t =>
        intro tm htm hf
        have hslot : (applyStim w (Stimulus.close t)).1.sess.saveTimeout = none := by
          simpa [applyStim, hc, closeStep] using
            closeWindow_slot_none (fireDue t w).1.sess (fireDue t w).1.oracle
        rw [hslot] at htm
        exact Option.noConfusion htm

theorem armedInv_runStims (w : World) (stims : List Stimulus) (h : armedContentInv w) :
    armedContentInv (runStims w stims).1 := by
  induction stims generalizing w with
  | nil => exact h
  | cons st rest ih => exact ih (applyStim w st).1 (armedInv_applyStim w st h)

/-- C5 amended: on every reachable session state, an armed (unfired) timer's
captured content equals the current `currentContent`, so when the timer expires
the save is invoked with the value of `lastKnownContent` current at expiry
time; but the `ScheduledSave` slot is cleared only when the save succeeds — on
failure the slot retains the fired timer's handle instead of being cleared. -/
theorem c5_amended_fire_keeps_slot_on_failure (id : String) (orc : List Bool)
    (stims : List Stimulus) :
    armedContentInv (runStims (initWorld id orc) stims).1
    ∧ (∀ (w : World) (t : Nat) (tm : TimerRec),
        w.sess.saveTimeout = some tm → tm.fired = false → tm.deadline ≤ t →
          (fireDue t w).2 =
            Call.save w.sess.noteId tm.content (takeOutcome w.oracle).1 ::
              (if (takeOutcome w.oracle).1 then [Call.refresh] else [])
          ∧ (fireDue t w).1.sess.saveTimeout =
              (if (takeOutcome w.oracle).1 then none else some { tm with fired := true })
          ∧ (fireDue t w).1.sess.currentContent = w.sess.currentContent) := by
  constructor
  · refine armedInv_runStims _ _ ?_
    intro tm htm hf
    exact Option.noConfusion htm
  · intro w t tm hs hf hd
    by_cases hok : (takeOutcome w.oracle).1 = true <;>
      refine ⟨?_, ?_, ?_⟩ <;>
        simp [fireDue, hs, hf, hd, fireTimerCallback, hok]

/-- C5 witness: a timer armed at t=0 with "Hello" fires at t=1000 with a
failing save: the save carries "Hello" (the content current at expiry) and the
slot keeps the fired handle instead of being cleared. -/
theorem c5_amended_fire_keeps_slot_on_failure_witness :
    (fireDue 1000 ⟨⟨"abc", "Hello", some ⟨1000, "Hello", false⟩⟩, [false], false⟩).2 =
      [Call.save "abc" "Hello" false]
    ∧ (fireDue 1000 ⟨⟨"abc", "Hello", some ⟨1000, "Hello", false⟩⟩, [false], false⟩).1.sess.saveTimeout
        = some ⟨1000, "Hello", true⟩ := by
  have h := (c5_amended_fire_keeps_slot_on_failure "abc" [false] []).2
      ⟨⟨"abc", "Hello", some ⟨1000, "Hello", false⟩⟩, [false], false⟩ 1000
      ⟨1000, "Hello", false⟩ rfl rfl (by decide)
  exact ⟨by simpa using h.1, by simpa using h.2.1⟩

theorem refreshState_append (a b : List Call) (e : Bool) :
    refreshState e (a ++ b) =
      Option.bind (refreshState e a) fun e2 => refreshState e2 b := by
  induction a generalizing e with
  | nil => rfl
  | cons c rest ih =>
      show refreshState e (c :: (rest ++ b)) = _
      cases hstep : refreshStep e c with
      | none => simp [refreshState, hstep]
      | some e2 => simp [refreshState, hstep, ih]

theorem refreshOk_fireDue (t : Nat) (w : World) :
    refreshState false (fireDue t w).2 = some false := by
  cases hs : w.sess.saveTimeout with
  | none => simp [fireDue, hs, refreshState]
  | some tm =>
      by_cases hc : tm.fired = false ∧ tm.deadline ≤ t
      · by_cases hok : (takeOutcome w.oracle).1 = true <;>
          simp [fireDue, hs, hc, fireTimerCallback, hok, refreshState, refreshStep]
      · simp [fireDue, hs, hc, refreshState]

theorem refreshOk_closeWindow (b : Bool) (s : SessionState) (orc : List Bool) :
    refreshState false (closeWindow b s orc).2.2 = some false := by
  cases b with
  | true => simp [closeWindow, refreshState, refreshStep]
  | false =>
      cases hs : s.saveTimeout with
      | none => simp [closeWindow, hs, refreshState, refreshStep]
      | some tm =>
          by_cases hok : (takeOutcome orc).1 = true <;>
            simp [closeWindow, hs, hok, refreshState, refreshStep]

theorem refreshOk_applyStim (w : World) (st : Stimulus) :
    refreshState false (applyStim w st).2 = some false := by
  by_cases hc : w.closed = true
  · simp [applyStim, hc, refreshState]
  · cases st with
    | edit t c => simpa [applyStim, hc] using refreshOk_fireDue t w
    | close t =>
        have htr : (applyStim w (Stimulus.close t)).2
            = (fireDue t w).2 ++ (closeStep (fireDue t w).1).2 := by
          simp [applyStim, hc]
        rw [htr, refreshState_append, refreshOk_fireDue]
        simpa [closeStep] using
          refreshOk_closeWindow false (fireDue t w).1.sess (fireDue t w).1.oracle

theorem refreshOk_runStims (w : World) (stims : List Stimulus) :
    refreshState false (runStims w stims).2 = some false := by
  induction stims generalizing w with
  | nil => rfl
  | cons st rest ih =>
      have htr : (runStims w (st :: rest)).2
          = (applyStim w st).2 ++ (runStims (applyStim w st).1 rest).2 := rfl
      rw [htr, refreshState_append, refreshOk_applyStim]
      simpa using ih (applyStim w st).1

theorem refreshOk_flush (w : World) :
    refreshState false (flushPendingTimer w).2 = some false := by
  cases hs : w.sess.saveTimeout with
  | none => simp [flushPendingTimer, hs, refreshState]
  | some tm => simpa [flushPendingTimer, hs] using refreshOk_fireDue tm.deadline w

theorem numSaves_fireDue (t : Nat) (w : World) : numSaves (fireDue t w).2 ≤ 1 := by
  cases hs : w.sess.saveTimeout with
  | none => simp [fireDue, hs, numSaves]
  | some tm =>
      by_cases hc : tm.fired = false ∧ tm.deadline ≤ t
      · by_cases hok : (takeOutcome w.oracle).1 = true <;>
          simp [fireDue, hs, hc, fireTimerCallback, hok, numSaves, isSaveCall]
      · simp [fireDue, hs, hc, numSaves]

theorem numSaves_closeWindow (b : Bool) (s : SessionState) (orc : List Bool) :
    numSaves (closeWindow b s orc).2.2 ≤ 1 := by
  cases b with
  | true => simp [closeWindow, numSaves, isSaveCall]
  | false =>
      cases hs : s.saveTimeout with
      | none => simp [closeWindow, hs, numSaves, isSaveCall]
      | some tm =>
          by_cases hok : (takeOutcome orc).1 = true <;>
            simp [closeWindow, hs, hok, numSaves, isSaveCall]

/-- C3: over every complete run of an editor session — any timed stimuli and
any save outcomes — a refresh is published on the bus exactly once, immediately
after each successful `save_note` call (whether from the debounce timer firing
or from the close-triggered flush), and never after a failed save, which is
only logged (`refreshState` returning `some false` states exactly that
correspondence).  Moreover no handler retries a save: the timer callback and
the close handler each issue at most one `save_note` call. -/
theorem c3_refresh_iff_successful_save (id : String) (orc : List Bool)
    (stims : List Stimulus) :
    refreshState false (runSession id orc stims).2 = some false
    ∧ (∀ (t : Nat) (w : World), numSaves (fireDue t w).2 ≤ 1)
    ∧ (∀ (b : Bool) (s : SessionState) (o : List Bool),
        numSaves (closeWindow b s o).2.2 ≤ 1) := by
  refine ⟨?_, fun t w => numSaves_fireDue t w, fun b s o => numSaves_closeWindow b s o⟩
  have htr : (runSession id orc stims).2
      = (runStims (initWorld id orc) stims).2
        ++ (flushPendingTimer (runStims (initWorld id orc) stims).1).2 := rfl
  rw [htr, refreshState_append, refreshOk_runStims]
  simpa using refreshOk_flush (runStims (initWorld id orc) stims).1

theorem runEdits_coalesce (id c0 : String) (orc : List Bool) (t0 : Nat)
    (es : List (Nat × String)) (h : closeArrivals t0 es = true) :
    runStims ⟨⟨id, c0, some ⟨t0 + 1000, c0, false⟩⟩, orc, false⟩ (editStims es) =
      (⟨⟨id, (lastTC t0 c0 es).2,
          some ⟨(lastTC t0 c0 es).1 + 1000, (lastTC t0 c0 es).2, false⟩⟩, orc, false⟩,
        []) := by
  induction es generalizing t0 c0 with
  | nil => simp [runStims, editStims, lastTC]
  | cons p rest ih =>
      obtain ⟨t, c⟩ := p
      rw [closeArrivals] at h
      simp only [Bool.and_eq_true, decide_eq_true_eq] at h
      obtain ⟨⟨h1, h2⟩, h3⟩ := h
      have hnofire : fireDue t ⟨⟨id, c0, some ⟨t0 + 1000, c0, false⟩⟩, orc, false⟩
          = (⟨⟨id, c0, some ⟨t0 + 1000, c0, false⟩⟩, orc, false⟩, []) := by
        simp [fireDue, Nat.not_le.mpr h2]
      have happ : applyStim ⟨⟨id, c0, some ⟨t0 + 1000, c0, false⟩⟩, orc, false⟩
          (Stimulus.edit t c)
          = (⟨⟨id, c, some ⟨t + 1000, c, false⟩⟩, orc, false⟩, []) := by
        simp [applyStim, hnofire, editStep, markdownUpdated, debounceSave]
      have hstims : editStims ((t, c) :: rest) = Stimulus.edit t c :: editStims rest := rfl
      rw [hstims]
      have hrun : runStims ⟨⟨id, c0, some ⟨t0 + 1000, c0, false⟩⟩, orc, false⟩
          (Stimulus.edit t c :: editStims rest)
          = ((runStims (applyStim ⟨⟨id, c0, some ⟨t0 + 1000, c0, false⟩⟩, orc, false⟩
                (Stimulus.edit t c)).1 (editStims rest)).1,
             (applyStim ⟨⟨id, c0, some ⟨t0 + 1000, c0, false⟩⟩, orc, false⟩
                (Stimulus.edit t c)).2 ++
              (runStims (applyStim ⟨⟨id, c0, some ⟨t0 + 1000, c0, false⟩⟩, orc, false⟩
                (Stimulus.edit t c)).1 (editStims rest)).2) := rfl
      rw [hrun, happ]
      simpa [lastTC] using ih c t h3

/-- C2: for a nonempty sequence of edits on one editor session whose arrivals
are strictly increasing and each strictly within the 1000 ms debounce delay of
the previous one, the complete run issues exactly one `save_note` call, and it
carries the content of the last edit (followed by a refresh exactly when that
save succeeds); moreover each new edit cancels and replaces the previously
scheduled save, re-arming the single `saveTimeout` slot with the new edit's
time and content, so at most one scheduled save exists per session at any
time. -/
theorem c2_debounce_coalesces (id : String) (orc : List Bool) (t1 : Nat) (c1 : String)
    (rest : List (Nat × String)) (h : closeArrivals t1 rest = true) :
    (runSession id orc (editStims ((t1, c1) :: rest))).2 =
      Call.save id (lastTC t1 c1 rest).2 (takeOutcome orc).1 ::
        (if (takeOutcome orc).1 then [Call.refresh] else [])
    ∧ (∀ (w : World) (t : Nat) (c : String), w.closed = false →
        (applyStim w (Stimulus.edit t c)).1.sess.saveTimeout
          = some ⟨t + 1000, c, false⟩) := by
  constructor
  · have hfirst : applyStim (initWorld id orc) (Stimulus.edit t1 c1)
        = (⟨⟨id, c1, some ⟨t1 + 1000, c1, false⟩⟩, orc, false⟩, []) := by
      simp [applyStim, initWorld, fireDue, editStep, markdownUpdated, debounceSave]
    have hstims : editStims ((t1, c1) :: rest) = Stimulus.edit t1 c1 :: editStims rest := rfl
    have hruncons : runStims (initWorld id orc) (Stimulus.edit t1 c1 :: editStims rest)
        = ((runStims (applyStim (initWorld id orc) (Stimulus.edit t1 c1)).1
              (editStims rest)).1,
           (applyStim (initWorld id orc) (Stimulus.edit t1 c1)).2 ++
            (runStims (applyStim (initWorld id orc) (Stimulus.edit t1 c1)).1
              (editStims rest)).2) := rfl
    have hrest := runEdits_coalesce id c1 orc t1 rest h
    have hrun : runStims (initWorld id orc) (editStims ((t1, c1) :: rest))
        = (⟨⟨id, (lastTC t1 c1 rest).2,
              some ⟨(lastTC t1 c1 rest).1 + 1000, (lastTC t1 c1 rest).2, false⟩⟩,
            orc, false⟩, []) := by
      rw [hstims, hruncons, hfirst, hrest]
      simp
    have htr : (runSession id orc (editStims ((t1, c1) :: rest))).2
        = (runStims (initWorld id orc) (editStims ((t1, c1) :: rest))).2
          ++ (flushPendingTimer
                (runStims (initWorld id orc) (editStims ((t1, c1) :: rest))).1).2 := rfl
    rw [htr, hrun]
    by_cases hok : (takeOutcome orc).1 = true <;>
      simp [flushPendingTimer, fireDue, fireTimerCallback, hok]
  · intro w t c hw
    simp [applyStim, hw, editStep, markdownUpdated, debounceSave]

/-- C2 witness: the spec's scenario — edits "Hello" at t=0 and "Hello world" at
t=300 on note "abc", with a successful save — issues exactly one save, carrying
"Hello world", followed by one refresh. -/
theorem c2_debounce_coalesces_witness :
    closeArrivals 0 [(300, "Hello world")] = true
    ∧ (runSession "abc" [true] (editStims [(0, "Hello"), (300, "Hello world")])).2 =
        [Call.save "abc" "Hello world" true, Call.refresh] := by
  refine ⟨by decide, ?_⟩
  have h := (c2_debounce_coalesces "abc" [true] 0 "Hello" [(300, "Hello world")]
      (by decide)).1
  simpa [lastTC, takeOutcome] using h
